import Mathlib

/-!
Shallow embedding of the `distiller-sdk` e-ink display driver
(`src/distiller_cm5_sdk/hardware/eink/lib/distiller_display_sdk.{h,c}`).

The driver is a small state machine over process-wide static resources
(a SPI file descriptor, a GPIO chip and three GPIO lines, and a boolean
flag `initialized`, named `inited` here), plus a pure image codec
`convert_png_to_1bit` that packs a decoded 128x250 RGBA image into the
panel's 4000-byte 1-bit row-major MSB-first frame format.

Modelling conventions:
- Machine integers are `Nat`/`Int`; channel samples are `Nat` values
  below 256 produced by the decoder.
- The SPI byte protocol is modelled as a trace of `SpiEvent`s: one event
  per `epd_w21_write_cmd` / `epd_w21_write_data` call, in program order.
  GPIO-only activity (reset pulses, busy polling, delays) produces no
  SPI event.
- External effects (open/ioctl/gpiod acquisition results, the busy input
  signal, PNG decoding) are supplied as explicit parameters.
- The hardware register init sequence `epd_init_hardware` emits SPI
  traffic but no claim concerns its trace, so `display_init` is modelled
  on the resource/flag state only.
-/

namespace EinkSDK

/-- EPD_WIDTH from distiller_display_sdk.h. -/
def EPD_WIDTH : Nat := 128

/-- EPD_HEIGHT from distiller_display_sdk.h. -/
def EPD_HEIGHT : Nat := 250

/-- EPD_ARRAY from distiller_display_sdk.h: (EPD_WIDTH * EPD_HEIGHT) / 8. -/
def EPD_ARRAY : Nat := EPD_WIDTH * EPD_HEIGHT / 8

/-- One RGBA sample quadruple of the decoded image (lodepng decode32 output). -/
structure Pixel where
  r : Nat
  g : Nat
  b : Nat
  a : Nat
deriving DecidableEq

instance : Inhabited Pixel := ⟨⟨0, 0, 0, 0⟩⟩

/-- A decoded image as returned by `lodepng_decode32_file`: width, height,
and the row-major pixel list. -/
structure DecodedImage where
  width : Nat
  height : Nat
  pixels : List Pixel
deriving DecidableEq

/-- The grayscale value computed in `convert_png_to_1bit`:
`(image_data[i] + image_data[i+1] + image_data[i+2]) / 3` (alpha ignored,
integer division; the C sum is an `int`, so no overflow occurs). -/
def pixelGray (p : Pixel) : Nat := (p.r + p.g + p.b) / 3

/-- The 1-bit classification in `convert_png_to_1bit`: `(gray > 128) ? 1 : 0`. -/
def pixelBit (p : Pixel) : Bool := decide (pixelGray p > 128)

/-- One iteration of the packing loop body of `convert_png_to_1bit` at pixel
index `i`: if the pixel classifies white, OR bit `7 - i % 8` into output
byte `i / 8`; otherwise leave the buffer as is. Out-of-range pixel reads
use the all-zero default (never reached for a well-formed decode). -/
def packStep (px : List Pixel) (buf : List Nat) (i : Nat) : List Nat :=
  if pixelBit (px.getD i default) then
    buf.set (i / 8) (buf.getD (i / 8) 0 ||| (1 <<< (7 - i % 8)))
  else
    buf

/-- Embedding of `convert_png_to_1bit` from the point where the image has
been decoded (decode failure and NULL-pointer argument failures happen
before this logic and return false without reaching it).  The function
receives the caller's output buffer `out` and returns the C `bool` result
paired with the buffer contents after the call: on dimension mismatch it
returns `false` and leaves the buffer untouched; otherwise it zeroes
`EPD_ARRAY` bytes (the `memset`) and runs the packing loop over pixel
indices `0 .. width*height - 1` (the `y`/`x` double loop with
`pixel_idx = y * width + x`). -/
def convert_png_to_1bit (img : DecodedImage) (out : List Nat) : Bool × List Nat :=
  if img.width ≠ EPD_WIDTH ∨ img.height ≠ EPD_HEIGHT then
    (false, out)
  else
    (true, (List.range (img.width * img.height)).foldl (packStep img.pixels)
      (List.replicate EPD_ARRAY 0))

/-- The driver's process-wide static state: `spi_fd` (−1 when closed), the
gpiod chip and three line handles (modelled as held/not-held), and the
`initialized` flag (named `inited`). -/
structure DState where
  spi_fd : Int
  chip : Bool
  dc_line : Bool
  rst_line : Bool
  busy_line : Bool
  inited : Bool
deriving DecidableEq

/-- The fully released state: all statics as after `display_cleanup`. -/
def cleanState : DState := ⟨-1, false, false, false, false, false⟩

/-- display_mode_t: DISPLAY_MODE_FULL / DISPLAY_MODE_PARTIAL. -/
inductive Mode where
  | full
  | part
deriving DecidableEq

/-- One byte on the SPI bus: a command byte (`epd_w21_write_cmd`, DC low) or
a data byte (`epd_w21_write_data`, DC high). -/
inductive SpiEvent where
  | cmd (b : Nat)
  | data (b : Nat)
deriving DecidableEq

/-- SPI trace of `epd_init_partial`: border waveform command 0x3C with the
partial-refresh register value 0x80. -/
def initPartTrace : List SpiEvent := [SpiEvent.cmd 0x3C, SpiEvent.data 0x80]

/-- SPI trace of `epd_update`: update control 0x22 with 0xF7, then activate 0x20
(the subsequent `lcd_chkstatus` busy-wait emits no SPI traffic). -/
def updateFullTrace : List SpiEvent :=
  [SpiEvent.cmd 0x22, SpiEvent.data 0xF7, SpiEvent.cmd 0x20]

/-- SPI trace of `epd_update_partial`: update control 0x22 with 0xFF, then
activate 0x20. -/
def updatePartTrace : List SpiEvent :=
  [SpiEvent.cmd 0x22, SpiEvent.data 0xFF, SpiEvent.cmd 0x20]

/-- Embedding of `display_image_raw`: fails (with no SPI traffic) when the
driver is not initialized or `data` is NULL; otherwise emits the partial
border-waveform setup when mode is PARTIAL, then the write-RAM command
0x24 followed by every frame byte in order, then the mode's update
sequence, and returns true.  A non-null pointer is `some d` with `d` the
EPD_ARRAY bytes the C code reads from it. -/
def display_image_raw (s : DState) (data : Option (List Nat)) (mode : Mode) :
    Bool × List SpiEvent :=
  match data with
  | none => (false, [])
  | some d =>
    if s.inited then
      (true,
        (if mode = Mode.part then initPartTrace else []) ++
          SpiEvent.cmd 0x24 :: d.map SpiEvent.data ++
            (if mode = Mode.full then updateFullTrace else updatePartTrace))
    else
      (false, [])

/-- Embedding of `display_clear`: on an uninitialized driver fail, otherwise
build the all-0xFF white frame (`memset(white_data, 0xFF, EPD_ARRAY)`) and
delegate to `display_image_raw` in FULL mode. -/
def display_clear (s : DState) : Bool × List SpiEvent :=
  if s.inited then
    display_image_raw s (some (List.replicate EPD_ARRAY 0xFF)) Mode.full
  else
    (false, [])

/-- Embedding of `display_image_png`: the decode result of the named file is
passed explicitly (`none` for a NULL filename or a failed decode/convert
precheck). The C stack buffer `image_data` is uninitialized before
`convert_png_to_1bit`, which never reads it; it is modelled as zeros. -/
def display_image_png (s : DState) (decoded : Option DecodedImage) (mode : Mode) :
    Bool × List SpiEvent :=
  match decoded with
  | none => (false, [])
  | some img =>
    if s.inited then
      match convert_png_to_1bit img (List.replicate EPD_ARRAY 0) with
      | (true, d) => display_image_raw s (some d) mode
      | (false, _) => (false, [])
    else
      (false, [])

/-- Embedding of `display_sleep`: a no-op on an uninitialized driver;
otherwise it sends the deep-sleep command 0x10 with payload 0x01 and
delays 100 ms.  Note that it does NOT modify any of the static variables:
in particular `inited` keeps its value. -/
def display_sleep (s : DState) : DState × List SpiEvent :=
  if s.inited then
    (s, [SpiEvent.cmd 0x10, SpiEvent.data 0x01])
  else
    (s, [])

/-- The release actions `display_cleanup` can perform, in source order. -/
inductive Release where
  | closeSpi
  | relDc
  | relRst
  | relBusy
  | closeChip
deriving DecidableEq

/-- Embedding of `display_cleanup`: closes the SPI descriptor only when it is
open (`spi_fd >= 0`), releases each of the three GPIO lines only when held,
closes the chip only when open, and unconditionally resets every static to
its released value with `initialized = false`.  Returns the new state and
the list of release actions actually performed, in source order. -/
def display_cleanup (s : DState) : DState × List Release :=
  (cleanState,
    (if 0 ≤ s.spi_fd then [Release.closeSpi] else []) ++
      (if s.dc_line then [Release.relDc] else []) ++
        (if s.rst_line then [Release.relRst] else []) ++
          (if s.busy_line then [Release.relBusy] else []) ++
            (if s.chip then [Release.closeChip] else []))

/-- Outcomes of the external acquisition calls made by `display_init`:
the `open("/dev/spidev0.0")` result, the three SPI config ioctls, the
gpiod chip open, the three `gpiod_chip_get_line` lookups, and the three
line request calls (each group collapsed to one flag, since the C code
only branches on the conjunction). -/
structure Env where
  spi_open_fd : Int
  spi_config_ok : Bool
  chip_ok : Bool
  dc_found : Bool
  rst_found : Bool
  busy_found : Bool
  lines_config_ok : Bool
deriving DecidableEq

/-- Embedding of `display_init` on the resource/flag state.  When already
initialized it returns true immediately without touching anything.
Otherwise it mirrors the C early-return structure: failed SPI open leaves
the negative descriptor stored; failed SPI config or chip open closes the
descriptor and resets it to −1; a missing line or a failed line request
calls `display_cleanup`; on success all resources are held, the register
init sequence `epd_init_hardware` runs (SPI trace elided), and `inited`
becomes true. -/
def display_init (env : Env) (s : DState) : Bool × DState :=
  if s.inited then
    (true, s)
  else if env.spi_open_fd < 0 then
    (false, { s with spi_fd := env.spi_open_fd })
  else if ¬ env.spi_config_ok then
    (false, { s with spi_fd := -1 })
  else if ¬ env.chip_ok then
    (false, { s with spi_fd := -1 })
  else
    let s1 : DState :=
      { s with spi_fd := env.spi_open_fd, chip := true,
               dc_line := env.dc_found, rst_line := env.rst_found,
               busy_line := env.busy_found }
    if ¬ (env.dc_found ∧ env.rst_found ∧ env.busy_found) then
      (false, (display_cleanup s1).1)
    else if ¬ env.lines_config_ok then
      (false, (display_cleanup s1).1)
    else
      (true, { s1 with inited := true })

/-- Embedding of `display_get_dimensions`: writes EPD_WIDTH through the width
pointer exactly when it is non-NULL and EPD_HEIGHT through the height
pointer exactly when it is non-NULL; a pointer is modelled as an optional
cell.  The function reads no static state and changes nothing, so the
state is returned untouched. -/
def display_get_dimensions (s : DState) (width height : Option Nat) :
    DState × Option Nat × Option Nat :=
  (s,
    (match width with
     | some _ => some EPD_WIDTH
     | none => none),
    (match height with
     | some _ => some EPD_HEIGHT
     | none => none))

/-- The busy-wait loop body of `lcd_chkstatus`:
`while (gpio_read(BUSY_PIN) == 1 && watchdog_counter < 1000)`.
`busy k` is the value `gpio_read` returns on the k-th poll (−1 models a
NULL busy line).  The loop increments the counter and sleeps 10 ms per
iteration; the `counter < 1000` conjunct bounds the iteration count, so
fuel 1001 makes the recursion total without changing the result. -/
def chkLoop (busy : Nat → Int) : Nat → Nat → Nat
  | counter, 0 => counter
  | counter, fuel + 1 =>
    if busy counter = 1 ∧ counter < 1000 then
      chkLoop busy (counter + 1) fuel
    else
      counter

/-- Embedding of `lcd_chkstatus`: returns the number of polls that read busy
(each preceded by a 10 ms delay) and whether the watchdog warning
(`counter >= 1000`) was printed.  The C function returns void either way:
the timeout is logged, never surfaced as a failure. -/
def lcd_chkstatus (busy : Nat → Int) : Nat × Bool :=
  let n := chkLoop busy 0 1001
  (n, decide (1000 ≤ n))

/-! ### Concrete decoded images used by the codec claims -/

/-- The image in which only pixel (0,0) is white and every other pixel is
black (128 x 250 = 32000 pixels, row-major). -/
def img0 : DecodedImage :=
  ⟨128, 250, Pixel.mk 255 255 255 255 :: List.replicate 31999 default⟩

/-- The image in which every pixel has all channels exactly 128
(integer mean exactly 128: the boundary value). -/
def img128 : DecodedImage :=
  ⟨128, 250, List.replicate 32000 ⟨128, 128, 128, 255⟩⟩

/-- The image with pixel (0,0) just above the threshold (channels 129) and
every other pixel exactly at it (channels 128). -/
def img129 : DecodedImage :=
  ⟨128, 250, Pixel.mk 129 129 129 255 :: List.replicate 31999 ⟨128, 128, 128, 255⟩⟩

/-! ### Codec lemmas -/

theorem EPD_ARRAY_eq : EPD_ARRAY = 4000 := by
  norm_num [EPD_ARRAY, EPD_WIDTH, EPD_HEIGHT]

theorem packStep_length (px : List Pixel) (buf : List Nat) (i : Nat) :
    (packStep px buf i).length = buf.length := by
  unfold packStep
  split
  · exact List.length_set _ _ _
  · rfl

theorem foldl_packStep_length (px : List Pixel) :
    ∀ (is : List Nat) (buf : List Nat),
      (is.foldl (packStep px) buf).length = buf.length := by
  intro is
  induction is with
  | nil => intro buf; rfl
  | cons i is ih =>
    intro buf
    rw [List.foldl_cons, ih, packStep_length]

theorem foldl_packStep_skip (px : List Pixel) :
    ∀ (is : List Nat) (buf : List Nat),
      (∀ i ∈ is, pixelBit (px.getD i default) = false) →
      is.foldl (packStep px) buf = buf := by
  intro is
  induction is with
  | nil => intro buf _; rfl
  | cons i is ih =>
    intro buf h
    have hi : pixelBit (px.getD i default) = false := h i (List.mem_cons_self i is)
    have hstep : packStep px buf i = buf := by
      unfold packStep
      rw [hi]
      simp
    rw [List.foldl_cons, hstep]
    exact ih buf fun j hj => h j (List.mem_cons_of_mem i hj)

theorem getD_replicate_lt {α : Type} (a d : α) :
    ∀ (n j : Nat), j < n → (List.replicate n a).getD j d = a := by
  intro n
  induction n with
  | zero => intro j hj; omega
  | succ n ih =>
    intro j hj
    rw [List.replicate_succ]
    cases j with
    | zero => exact List.getD_cons_zero
    | succ j =>
      rw [List.getD_cons_succ]
      exact ih j (by omega)

theorem convert_single_head (hp tp : Pixel) (hbit : pixelBit hp = true)
    (tbit : pixelBit tp = false) (out : List Nat) :
    convert_png_to_1bit ⟨128, 250, hp :: List.replicate 31999 tp⟩ out
      = (true, 128 :: List.replicate 3999 0) := by
  unfold convert_png_to_1bit
  rw [if_neg (by simp [EPD_WIDTH, EPD_HEIGHT])]
  have h32 : (128 : Nat) * 250 = 31999 + 1 := by norm_num
  have harr : EPD_ARRAY = 3999 + 1 := by
    rw [EPD_ARRAY_eq]
  simp only [h32, harr]
  have hrep : List.replicate (3999 + 1) (0 : Nat) = 0 :: List.replicate 3999 0 :=
    List.replicate_succ 0 3999
  rw [List.range_succ_eq_map, List.foldl_cons, hrep]
  have hor : (0 : Nat) ||| (1 <<< (7 - 0 % 8)) = 128 := by decide
  have hstep : packStep (hp :: List.replicate 31999 tp) (0 :: List.replicate 3999 0) 0
      = 128 :: List.replicate 3999 0 := by
    unfold packStep
    rw [List.getD_cons_zero, hbit]
    simp only [if_true]
    rw [show (0 : Nat) / 8 = 0 from rfl, List.getD_cons_zero, hor]
    exact List.set_cons_zero 0 (List.replicate 3999 0) 128
  rw [hstep, foldl_packStep_skip]
  intro i hi
  rw [List.mem_map] at hi
  obtain ⟨j, hj, rfl⟩ := hi
  rw [List.mem_range] at hj
  rw [show Nat.succ j = j + 1 from rfl, List.getD_cons_succ,
    getD_replicate_lt tp default 31999 j hj]
  exact tbit

theorem convert_all_boundary (out : List Nat) :
    convert_png_to_1bit img128 out = (true, List.replicate 4000 0) := by
  unfold convert_png_to_1bit img128
  rw [if_neg (by simp [EPD_WIDTH, EPD_HEIGHT])]
  have hskip : ∀ i ∈ List.range (128 * 250),
      pixelBit ((List.replicate 32000 (⟨128, 128, 128, 255⟩ : Pixel)).getD i default)
        = false := by
    intro i hi
    rw [List.mem_range] at hi
    rw [getD_replicate_lt _ default 32000 i (by omega)]
    decide
  rw [foldl_packStep_skip _ _ _ hskip, EPD_ARRAY_eq]

/-! ### Claim theorems: image codec -/

/-- Claim C1: for every decoded RGBA image of exactly 128 x 250 pixels,
`convert_png_to_1bit` succeeds and fills exactly 4000 (EPD_ARRAY) output
bytes, packed row-major MSB-first; in particular, on the image where only
pixel (0,0) is white and every other pixel is black, the first output byte
is 0x80 = 128 and the remaining 3999 bytes are 0. -/
theorem convert_png_to_1bit_spec (img : DecodedImage)
    (hw : img.width = 128) (hh : img.height = 250) (out : List Nat) :
    ((convert_png_to_1bit img out).1 = true ∧
      (convert_png_to_1bit img out).2.length = 4000) ∧
    convert_png_to_1bit img0 out = (true, 128 :: List.replicate 3999 0) := by
  constructor
  · unfold convert_png_to_1bit
    rw [if_neg (by simp [hw, hh, EPD_WIDTH, EPD_HEIGHT])]
    exact ⟨rfl, by rw [foldl_packStep_length, List.length_replicate, EPD_ARRAY_eq]⟩
  · unfold img0
    exact convert_single_head _ _ (by decide) (by decide) out

/-- Witness for C1 at the concrete one-white-pixel image. -/
theorem convert_png_to_1bit_spec_witness :
    ((convert_png_to_1bit img0 []).1 = true ∧
      (convert_png_to_1bit img0 []).2.length = 4000) ∧
    convert_png_to_1bit img0 [] = (true, 128 :: List.replicate 3999 0) :=
  convert_png_to_1bit_spec img0 rfl rfl []

/-- Claim C2: the codec classifies a pixel white (bit 1) exactly when its
integer mean luminance (r + g + b) / 3 (alpha ignored, as the C code
computes it) strictly exceeds 128; a mean of exactly 128 classifies black.
The boundary is exercised at luminance 0, 127, 128, 129 and 255, and on
whole frames: the all-128 image packs to the all-zero frame while a lone
129-luminance pixel at (0,0) sets only the MSB of byte 0. -/
theorem pixel_threshold_spec (p : Pixel) (out : List Nat) :
    (pixelBit p = true ↔ 128 < (p.r + p.g + p.b) / 3) ∧
    pixelBit ⟨p.r, p.g, p.b, 0⟩ = pixelBit p ∧
    pixelBit ⟨0, 0, 0, 0⟩ = false ∧
    pixelBit ⟨127, 127, 127, 0⟩ = false ∧
    pixelBit ⟨128, 128, 128, 0⟩ = false ∧
    pixelBit ⟨129, 129, 129, 0⟩ = true ∧
    pixelBit ⟨255, 255, 255, 0⟩ = true ∧
    convert_png_to_1bit img128 out = (true, List.replicate 4000 0) ∧
    convert_png_to_1bit img129 out = (true, 128 :: List.replicate 3999 0) := by
  refine ⟨?_, rfl, by decide, by decide, by decide, by decide, by decide,
    convert_all_boundary out, ?_⟩
  · simp [pixelBit, pixelGray]
  · unfold img129
    exact convert_single_head _ _ (by decide) (by decide) out

/-- Claim C4: a successfully decoded image whose dimensions differ from
128 x 250 is rejected: `convert_png_to_1bit` returns false and the
caller's output buffer is returned exactly as it was passed in. -/
theorem convert_dim_mismatch (img : DecodedImage) (out : List Nat)
    (h : img.width ≠ 128 ∨ img.height ≠ 250) :
    convert_png_to_1bit img out = (false, out) := by
  unfold convert_png_to_1bit
  rw [if_pos (by simpa [EPD_WIDTH, EPD_HEIGHT] using h)]

/-- Witness for C4 at a 100 x 100 image. -/
theorem convert_dim_mismatch_witness :
    convert_png_to_1bit ⟨100, 100, []⟩ [7, 7] = (false, [7, 7]) :=
  convert_dim_mismatch ⟨100, 100, []⟩ [7, 7] (Or.inl (by decide))

/-! ### Driver state-machine lemmas and claims -/

/-- A fully initialized driver state (descriptor 0, all handles held). -/
def readyState : DState := ⟨0, true, true, true, true, true⟩

/-- An acquisition environment in which every external call succeeds. -/
def goodEnv : Env := ⟨0, true, true, true, true, true, true⟩

theorem display_init_inited (env : Env) (s : DState)
    (h : (display_init env s).1 = true) :
    (display_init env s).2.inited = true := by
  by_cases h1 : s.inited = true
  · simp [display_init, h1]
  · by_cases h2 : env.spi_open_fd < 0
    · exfalso
      simp [display_init, h1, h2] at h
    · by_cases h3 : env.spi_config_ok = true
      · by_cases h4 : env.chip_ok = true
        · by_cases h5 : env.dc_found = true ∧ env.rst_found = true ∧ env.busy_found = true
          · by_cases h6 : env.lines_config_ok = true
            · simp [display_init, h1, h2, h3, h4, h5, h6]
            · exfalso
              simp [display_init, h1, h2, h3, h4, h5, h6] at h
          · exfalso
            simp [display_init, h1, h2, h3, h4, h5] at h
        · exfalso
          simp [display_init, h1, h2, h3, h4] at h
      · exfalso
        simp [display_init, h1, h2, h3] at h

/-- Claim C6: `display_init` is idempotent.  If a call succeeds, a second
call (under any acquisition environment, since nothing external is touched)
returns success immediately and leaves the whole resource state — bus
descriptor, chip and line handles, flag — exactly as it was. -/
theorem display_init_idem (env env2 : Env) (s : DState)
    (h : (display_init env s).1 = true) :
    display_init env2 (display_init env s).2 = (true, (display_init env s).2) := by
  have hin : (display_init env s).2.inited = true := display_init_inited env s h
  have hgen : ∀ t : DState, t.inited = true → display_init env2 t = (true, t) := by
    intro t ht
    unfold display_init
    simp [ht]
  exact hgen _ hin

/-- Witness for C6: a successful init from the released state, re-run. -/
theorem display_init_idem_witness :
    display_init goodEnv (display_init goodEnv cleanState).2
      = (true, (display_init goodEnv cleanState).2) :=
  display_init_idem goodEnv goodEnv cleanState (by decide)

/-- Claim C7: `display_cleanup` never faults from any state, releases each
resource exactly when it is actually held (descriptor when `spi_fd >= 0`,
each line and the chip when non-NULL), resets every static to its released
value with the flag false, and a second call in a row is a no-op that
performs no release action. -/
theorem display_cleanup_spec (s : DState) :
    (display_cleanup s).1 = cleanState ∧
    (Release.closeSpi ∈ (display_cleanup s).2 ↔ 0 ≤ s.spi_fd) ∧
    (Release.relDc ∈ (display_cleanup s).2 ↔ s.dc_line = true) ∧
    (Release.relRst ∈ (display_cleanup s).2 ↔ s.rst_line = true) ∧
    (Release.relBusy ∈ (display_cleanup s).2 ↔ s.busy_line = true) ∧
    (Release.closeChip ∈ (display_cleanup s).2 ↔ s.chip = true) ∧
    display_cleanup (display_cleanup s).1 = (cleanState, []) := by
  have hTwice : display_cleanup (display_cleanup s).1 = (cleanState, []) := by
    show display_cleanup cleanState = (cleanState, [])
    decide
  refine ⟨rfl, ?_, ?_, ?_, ?_, ?_, hTwice⟩ <;>
    · simp only [display_cleanup]
      split_ifs <;> simp_all

/-- Claim C3 counterexample: the claim says every display operation after
`display_sleep` fails until re-init, but `display_sleep` leaves the
`initialized` flag set, so `display_image_raw` on the slept handle with a
valid frame still returns true. -/
theorem display_sleep_then_raw_true :
    (display_image_raw (display_sleep readyState).1
      (some (List.replicate 4000 255)) Mode.full).1 = true := rfl

/-- Claim C3 (amended): `display_sleep` on a Ready handle sends the
deep-sleep command 0x10 with payload 0x01 but changes no driver state (the
`initialized` flag stays true), so subsequent `display_image_raw`,
`display_clear` and `display_image_png` calls with valid arguments still
succeed; re-initialization is neither required nor enforced in software. -/
theorem display_sleep_not_enforced (s : DState) (h : s.inited = true)
    (d : List Nat) (m : Mode) (img : DecodedImage)
    (hw : img.width = 128) (hh : img.height = 250) :
    (display_sleep s).1 = s ∧
    (display_sleep s).2 = [SpiEvent.cmd 0x10, SpiEvent.data 0x01] ∧
    (display_image_raw (display_sleep s).1 (some d) m).1 = true ∧
    (display_clear (display_sleep s).1).1 = true ∧
    (display_image_png (display_sleep s).1 (some img) m).1 = true := by
  have hs : display_sleep s = (s, [SpiEvent.cmd 0x10, SpiEvent.data 0x01]) := by
    unfold display_sleep
    simp [h]
  have hconv : (convert_png_to_1bit img (List.replicate EPD_ARRAY 0)).1 = true := by
    unfold convert_png_to_1bit
    rw [if_neg (by simp [hw, hh, EPD_WIDTH, EPD_HEIGHT])]
  refine ⟨by rw [hs], by rw [hs], ?_, ?_, ?_⟩
  · rw [hs]
    simp [display_image_raw, h]
  · rw [hs]
    simp [display_clear, display_image_raw, h]
  · rw [hs]
    rcases hcpair : convert_png_to_1bit img (List.replicate EPD_ARRAY 0) with ⟨b, buf⟩
    have hb : b = true := by
      rw [hcpair] at hconv
      exact hconv
    subst hb
    simp [display_image_png, h, hcpair, display_image_raw]

/-- Witness for the amended C3 at the ready state. -/
theorem display_sleep_not_enforced_witness :
    (display_sleep readyState).1 = readyState ∧
    (display_sleep readyState).2 = [SpiEvent.cmd 0x10, SpiEvent.data 0x01] ∧
    (display_image_raw (display_sleep readyState).1 (some []) Mode.full).1 = true ∧
    (display_clear (display_sleep readyState).1).1 = true ∧
    (display_image_png (display_sleep readyState).1
      (some ⟨128, 250, []⟩) Mode.full).1 = true :=
  display_sleep_not_enforced readyState rfl [] Mode.full ⟨128, 250, []⟩ rfl rfl

/-- Claim C5: on a Ready handle with a non-null frame, PARTIAL mode emits
the border-waveform command 0x3C with data 0x80 immediately before the
write-RAM command 0x24 and the frame bytes, while FULL mode starts
directly with 0x24 and its trace contains no 0x3C command at all. -/
theorem display_image_raw_border_order (s : DState) (h : s.inited = true)
    (d : List Nat) :
    (display_image_raw s (some d) Mode.part).2
      = SpiEvent.cmd 0x3C :: SpiEvent.data 0x80 :: SpiEvent.cmd 0x24 ::
          (d.map SpiEvent.data ++ updatePartTrace) ∧
    (display_image_raw s (some d) Mode.full).2
      = SpiEvent.cmd 0x24 :: (d.map SpiEvent.data ++ updateFullTrace) ∧
    SpiEvent.cmd 0x3C ∉ (display_image_raw s (some d) Mode.full).2 := by
  refine ⟨?_, ?_, ?_⟩
  · simp [display_image_raw, h, initPartTrace]
  · simp [display_image_raw, h]
  · simp [display_image_raw, h, updateFullTrace, List.mem_append, List.mem_map]

/-- Witness for C5 at the ready state with the all-white frame. -/
theorem display_image_raw_border_order_witness :
    (display_image_raw readyState (some (List.replicate 4000 255)) Mode.part).2
      = SpiEvent.cmd 0x3C :: SpiEvent.data 0x80 :: SpiEvent.cmd 0x24 ::
          ((List.replicate 4000 (255 : Nat)).map SpiEvent.data ++ updatePartTrace) ∧
    (display_image_raw readyState (some (List.replicate 4000 255)) Mode.full).2
      = SpiEvent.cmd 0x24 ::
          ((List.replicate 4000 (255 : Nat)).map SpiEvent.data ++ updateFullTrace) ∧
    SpiEvent.cmd 0x3C ∉
      (display_image_raw readyState (some (List.replicate 4000 255)) Mode.full).2 :=
  display_image_raw_border_order readyState rfl (List.replicate 4000 255)

/-- Claim C8: `display_clear` is, byte for byte in its SPI trace and in its
boolean result, the same call as `display_image_raw` with the all-0xFF
4000-byte frame in FULL mode — in every driver state. -/
theorem display_clear_eq_raw_white (s : DState) :
    display_clear s
      = display_image_raw s (some (List.replicate EPD_ARRAY 0xFF)) Mode.full := by
  by_cases h : s.inited = true <;> simp [display_clear, display_image_raw, h]

theorem chkLoop_le (busy : Nat → Int) :
    ∀ (fuel c : Nat), c ≤ 1000 → chkLoop busy c fuel ≤ 1000 := by
  intro fuel
  induction fuel with
  | zero =>
    intro c hc
    simpa [chkLoop] using hc
  | succ fuel ih =>
    intro c hc
    unfold chkLoop
    split
    · exact ih (c + 1) (by omega)
    · exact hc

theorem chkLoop_first (busy : Nat → Int) (j : Nat) (hj : j < 1000) (hb : busy j ≠ 1) :
    ∀ (fuel c : Nat), c ≤ j → j < c + fuel →
      (∀ i, c ≤ i → i < j → busy i = 1) → chkLoop busy c fuel = j := by
  intro fuel
  induction fuel with
  | zero =>
    intro c hc1 hc2 _
    omega
  | succ fuel ih =>
    intro c hc1 hc2 hfirst
    unfold chkLoop
    by_cases hcj : c = j
    · subst hcj
      rw [if_neg (by rintro ⟨h1, _⟩; exact hb h1)]
    · have hlt : c < j := by omega
      rw [if_pos ⟨hfirst c le_rfl hlt, by omega⟩]
      exact ih (c + 1) (by omega) (by omega) fun i hi1 hi2 => hfirst i (by omega) hi2

theorem chkLoop_all (busy : Nat → Int) (hall : ∀ i, i < 1000 → busy i = 1) :
    ∀ (fuel c : Nat), c ≤ 1000 → 1000 ≤ c + fuel → chkLoop busy c fuel = 1000 := by
  intro fuel
  induction fuel with
  | zero =>
    intro c h1 h2
    simp only [chkLoop]
    omega
  | succ fuel ih =>
    intro c h1 h2
    unfold chkLoop
    by_cases hc : c < 1000
    · rw [if_pos ⟨hall c hc, hc⟩]
      exact ih (c + 1) (by omega) (by omega)
    · rw [if_neg (by rintro ⟨_, hlt⟩; exact hc hlt)]
      omega

/-- Claim C9: the busy-wait of `lcd_chkstatus` always terminates within
1000 polls (each preceded by a 10 ms delay): it stops at the first poll
that reads other than busy (1), returning that poll count with no warning;
and when all 1000 polls read busy it stops at the bound, returns normally
and only sets the warning flag — the timeout is never a failure result. -/
theorem lcd_chkstatus_spec (busy : Nat → Int) :
    (lcd_chkstatus busy).1 ≤ 1000 ∧
    (∀ j, j < 1000 → busy j ≠ 1 → (∀ i, i < j → busy i = 1) →
      lcd_chkstatus busy = (j, false)) ∧
    ((∀ i, i < 1000 → busy i = 1) → lcd_chkstatus busy = (1000, true)) := by
  refine ⟨chkLoop_le busy 1001 0 (by omega), ?_, ?_⟩
  · intro j hj hb hfirst
    have hn : chkLoop busy 0 1001 = j :=
      chkLoop_first busy j hj hb 1001 0 (by omega) (by omega) fun i _ hi => hfirst i hi
    simp only [lcd_chkstatus, hn]
    have : ¬ (1000 ≤ j) := by omega
    simp [this]
  · intro hall
    have hn : chkLoop busy 0 1001 = 1000 :=
      chkLoop_all busy hall 1001 0 (by omega) (by omega)
    simp [lcd_chkstatus, hn]

/-- Witness for C9 on the stream whose first poll already reads not busy. -/
theorem lcd_chkstatus_spec_witness : lcd_chkstatus (fun _ => 0) = (0, false) :=
  (lcd_chkstatus_spec fun _ => 0).2.1 0 (by omega) (by decide)
    fun i hi => absurd hi (Nat.not_lt_zero i)

/-- Claim C10: `display_get_dimensions` never faults for any combination of
null and non-null pointers and any driver state: it writes 128 through the
width pointer exactly when that pointer is non-null and 250 through the
height pointer exactly when that pointer is non-null, and changes no other
state. -/
theorem display_get_dimensions_spec (s : DState) (width height : Option Nat) :
    display_get_dimensions s width height
      = (s, (if width.isSome then some 128 else none),
          (if height.isSome then some 250 else none)) := by
  cases width <;> cases height <;> rfl

end EinkSDK
